import Mathlib

/-!
Shallow embedding of the glennprays/log Go library (a policy layer over the
zap structured-logging backend) and proofs about its configuration
validation, level mapping, caller extraction and logger composition.

Modelling conventions:
* Go strings are Lean `String`; Go `int` is Lean `Int`.
* A Go `error` value is `none`/`[]` (nil) or the error message text.
* A Go panic is modelled by an `Option` result being `none`.
* The zap backend's encoding, level filtering and I/O are external
  collaborators; a log call is modelled up to the record handed to the
  backend core (level, message and the ordered field list).
-/

namespace GLog

/-- Whitespace test used by Go `strings.TrimSpace` (`unicode.IsSpace`),
restricted to the Latin-1 range: space, tab, newline, vertical tab, form
feed, carriage return, next line (U+0085) and no-break space (U+00A0). -/
def goIsSpace (c : Char) : Bool :=
  c = ' ' || c = '\t' || c = '\n' || c = Char.ofNat 11 || c = Char.ofNat 12 ||
  c = '\r' || c = Char.ofNat 133 || c = Char.ofNat 160

/-- Models Go `strings.TrimSpace`: drop leading and trailing whitespace. -/
def trimSpace (s : String) : String :=
  String.mk (((s.toList.dropWhile goIsSpace).reverse.dropWhile goIsSpace).reverse)

/-- Models Go `strings.ToLower` on the ASCII letters used by this library
(Go lowercases the full Unicode range; all comparisons in the source are
against ASCII literals). -/
def goToLower (s : String) : String :=
  String.mk (s.toList.map Char.toLower)

/-- Models `zapcore.Level`, the backend severity type (only the five values
this library maps to). -/
inductive ZapLevel where
  | debug : ZapLevel
  | info : ZapLevel
  | warn : ZapLevel
  | error : ZapLevel
  | fatal : ZapLevel
  deriving DecidableEq, Repr

/-- Models the `Level` string type of level.go. -/
abbrev Level := String

/-- Level constant from level.go. -/
def DebugLevel : Level := "debug"

/-- Level constant from level.go. -/
def InfoLevel : Level := "info"

/-- Level constant from level.go. -/
def WarnLevel : Level := "warn"

/-- Level constant from level.go. -/
def ErrorLevel : Level := "error"

/-- Level constant from level.go. -/
def FatalLevel : Level := "fatal"

/-- Models `Level.toZapLevel` from level.go: a switch on the lowercased
level string; the second component is the returned error (`none` is nil),
and the severity component is `info` in the default (error) branch. -/
def Level.toZapLevel (l : Level) : ZapLevel × Option String :=
  let s := goToLower l
  if s = "debug" then (ZapLevel.debug, none)
  else if s = "info" then (ZapLevel.info, none)
  else if s = "warn" ∨ s = "warning" then (ZapLevel.warn, none)
  else if s = "error" then (ZapLevel.error, none)
  else if s = "fatal" then (ZapLevel.fatal, none)
  else (ZapLevel.info, some ("invalid log level: " ++ l ++ " (valid: debug, info, warn, error, fatal)"))

/-- Models the `OutputType` string type of output.go. -/
abbrev OutputType := String

/-- Output constant from output.go. -/
def OutputStdout : OutputType := "stdout"

/-- Output constant from output.go. -/
def OutputFile : OutputType := "file"

/-- Models the `Config` struct of config.go. -/
structure Config where
  Service : String
  Env : String
  Level : Level
  Output : OutputType
  FilePath : String
  MaxSizeMB : Int
  MaxBackups : Int
  MaxAgeDays : Int
  deriving DecidableEq, Repr

/-- Models `Config.Validate` from config.go. The Go method mutates its
receiver (backfilling the rotation defaults) and returns the aggregated
error `errors.Join(errs...)`, which is nil exactly when `errs` is empty;
here it returns the updated config paired with the list of violation
messages. -/
def Config.validate (c : Config) : Config × List String :=
  let errs : List String := []
  let errs := errs ++
    (if trimSpace c.Service = "" then ["service name is required"] else [])
  let errs := errs ++
    (if trimSpace c.Env = "" then ["environment is required"]
     else
       let env := goToLower (trimSpace c.Env)
       if env ≠ "dev" ∧ env ≠ "development" ∧ env ≠ "staging" ∧ env ≠ "prod" ∧ env ≠ "production" then
         ["environment must be one of: dev, development, staging, prod, production (got: " ++ c.Env ++ ")"]
       else [])
  let errs := errs ++
    (if c.Level = "" then ["log level is required"]
     else (Level.toZapLevel c.Level).2.toList)
  let errs := errs ++
    (if c.Output = "" then ["output type is required"]
     else if c.Output ≠ OutputStdout ∧ c.Output ≠ OutputFile then
       ["output must be stdout or file (got: " ++ c.Output ++ ")"]
     else [])
  let errs := errs ++
    (if c.Output = OutputFile ∧ trimSpace c.FilePath = "" then
       ["file path is required when output is file"]
     else [])
  let c := if c.MaxSizeMB ≤ 0 then { c with MaxSizeMB := 100 } else c
  let c := if c.MaxBackups ≤ 0 then { c with MaxBackups := 3 } else c
  let c := if c.MaxAgeDays ≤ 0 then { c with MaxAgeDays := 28 } else c
  (c, errs)

/-- The messages appended for the service rule of `Config.Validate`. -/
def serviceErrs (c : Config) : List String :=
  if trimSpace c.Service = "" then ["service name is required"] else []

/-- The messages appended for the environment rule of `Config.Validate`. -/
def envErrs (c : Config) : List String :=
  if trimSpace c.Env = "" then ["environment is required"]
  else
    let env := goToLower (trimSpace c.Env)
    if env ≠ "dev" ∧ env ≠ "development" ∧ env ≠ "staging" ∧ env ≠ "prod" ∧ env ≠ "production" then
      ["environment must be one of: dev, development, staging, prod, production (got: " ++ c.Env ++ ")"]
    else []

/-- The messages appended for the level rule of `Config.Validate`. -/
def levelErrs (c : Config) : List String :=
  if c.Level = "" then ["log level is required"]
  else (Level.toZapLevel c.Level).2.toList

/-- The messages appended for the output rule of `Config.Validate`. -/
def outputErrs (c : Config) : List String :=
  if c.Output = "" then ["output type is required"]
  else if c.Output ≠ OutputStdout ∧ c.Output ≠ OutputFile then
    ["output must be stdout or file (got: " ++ c.Output ++ ")"]
  else []

/-- The messages appended for the file-path rule of `Config.Validate`. -/
def filePathErrs (c : Config) : List String :=
  if c.Output = OutputFile ∧ trimSpace c.FilePath = "" then
    ["file path is required when output is file"]
  else []

/-- The service rule of `Config.Validate` is violated: empty (whitespace)
service name. -/
abbrev serviceViolated (c : Config) : Prop := trimSpace c.Service = ""

/-- The environment rule of `Config.Validate` is violated: empty or
unrecognized environment. -/
abbrev envViolated (c : Config) : Prop :=
  trimSpace c.Env = "" ∨
    (goToLower (trimSpace c.Env) ≠ "dev" ∧ goToLower (trimSpace c.Env) ≠ "development" ∧
     goToLower (trimSpace c.Env) ≠ "staging" ∧ goToLower (trimSpace c.Env) ≠ "prod" ∧
     goToLower (trimSpace c.Env) ≠ "production")

/-- The level rule of `Config.Validate` is violated: missing or invalid
level. -/
abbrev levelViolated (c : Config) : Prop :=
  c.Level = "" ∨ (Level.toZapLevel c.Level).2 ≠ none

/-- The output rule of `Config.Validate` is violated: missing or invalid
output type. -/
abbrev outputViolated (c : Config) : Prop :=
  c.Output = "" ∨ (c.Output ≠ OutputStdout ∧ c.Output ≠ OutputFile)

/-- The file-path rule of `Config.Validate` is violated: file output with an
empty (whitespace) path. -/
abbrev filePathViolated (c : Config) : Prop :=
  c.Output = OutputFile ∧ trimSpace c.FilePath = ""

/-- The message `Config.Validate` reports for an environment violation. -/
def envMsg (c : Config) : String :=
  if trimSpace c.Env = "" then "environment is required"
  else "environment must be one of: dev, development, staging, prod, production (got: " ++ c.Env ++ ")"

/-- The message `Config.Validate` reports for a level violation. -/
def levelMsg (c : Config) : String :=
  if c.Level = "" then "log level is required"
  else "invalid log level: " ++ c.Level ++ " (valid: debug, info, warn, error, fatal)"

/-- The message `Config.Validate` reports for an output violation. -/
def outputMsg (c : Config) : String :=
  if c.Output = "" then "output type is required"
  else "output must be stdout or file (got: " ++ c.Output ++ ")"

lemma toZapLevel_snd_cases (l : Level) :
    (Level.toZapLevel l).2 = none ∨
    (Level.toZapLevel l).2 =
      some ("invalid log level: " ++ l ++ " (valid: debug, info, warn, error, fatal)") := by
  simp only [Level.toZapLevel]
  split_ifs <;> simp

lemma validate_snd (c : Config) :
    (Config.validate c).2 =
      serviceErrs c ++ (envErrs c ++ (levelErrs c ++ (outputErrs c ++ filePathErrs c))) := by
  simp [Config.validate, serviceErrs, envErrs, levelErrs, outputErrs, filePathErrs]

lemma serviceErrs_spec (c : Config) :
    (serviceErrs c = [] ↔ ¬ serviceViolated c) ∧
    (serviceViolated c → "service name is required" ∈ serviceErrs c) := by
  unfold serviceErrs serviceViolated
  split_ifs with h <;> simp [h]

lemma envErrs_spec (c : Config) :
    (envErrs c = [] ↔ ¬ envViolated c) ∧
    (envViolated c → envMsg c ∈ envErrs c) := by
  unfold envErrs envViolated envMsg
  split_ifs with h <;> simp_all

lemma levelErrs_spec (c : Config) :
    (levelErrs c = [] ↔ ¬ levelViolated c) ∧
    (levelViolated c → levelMsg c ∈ levelErrs c) := by
  unfold levelErrs levelViolated levelMsg
  rcases toZapLevel_snd_cases c.Level with h | h <;> split_ifs with h2 <;> simp_all

lemma outputErrs_spec (c : Config) :
    (outputErrs c = [] ↔ ¬ outputViolated c) ∧
    (outputViolated c → outputMsg c ∈ outputErrs c) := by
  unfold outputErrs outputViolated outputMsg
  split_ifs with h h2 <;> simp_all
  tauto

lemma filePathErrs_spec (c : Config) :
    (filePathErrs c = [] ↔ ¬ filePathViolated c) ∧
    (filePathViolated c → "file path is required when output is file" ∈ filePathErrs c) := by
  unfold filePathErrs filePathViolated
  split_ifs with h <;> simp_all

lemma validate_fst_MaxSizeMB (c : Config) :
    (Config.validate c).1.MaxSizeMB = if c.MaxSizeMB ≤ 0 then 100 else c.MaxSizeMB := by
  simp only [Config.validate]
  split_ifs <;> simp_all

lemma validate_fst_MaxBackups (c : Config) :
    (Config.validate c).1.MaxBackups = if c.MaxBackups ≤ 0 then 3 else c.MaxBackups := by
  simp only [Config.validate]
  split_ifs <;> simp_all

lemma validate_fst_MaxAgeDays (c : Config) :
    (Config.validate c).1.MaxAgeDays = if c.MaxAgeDays ≤ 0 then 28 else c.MaxAgeDays := by
  simp only [Config.validate]
  split_ifs <;> simp_all

lemma validate_fst_frame (c : Config) :
    (Config.validate c).1.Service = c.Service ∧ (Config.validate c).1.Env = c.Env ∧
    (Config.validate c).1.Level = c.Level ∧ (Config.validate c).1.Output = c.Output ∧
    (Config.validate c).1.FilePath = c.FilePath := by
  simp only [Config.validate]
  split_ifs <;> simp_all

/-- Concrete configuration violating the service and environment rules,
used to exercise the aggregation property of `Config.Validate`. -/
def cfgTwoBad : Config :=
  { Service := "", Env := "qa", Level := "info", Output := "stdout",
    FilePath := "", MaxSizeMB := 1, MaxBackups := 1, MaxAgeDays := 1 }

/-- Concrete configuration with mixed rotation settings, used to exercise
the rotation-default backfill of `Config.Validate`. -/
def cfgRotation : Config :=
  { Service := "svc", Env := "dev", Level := "info", Output := "stdout",
    FilePath := "", MaxSizeMB := 0, MaxBackups := 5, MaxAgeDays := -1 }

/-- C1: `Config.Validate` succeeds (nil aggregated error, i.e. an empty
message list) exactly when the service, environment, level, output and
file-path rules all pass, and whenever k ≥ 1 of those rules are violated
the returned error contains the message of each violated rule, not just the
first one. -/
theorem validate_reports_every_violation (c : Config) :
    ((Config.validate c).2 = [] ↔
      ¬ serviceViolated c ∧ ¬ envViolated c ∧ ¬ levelViolated c ∧
      ¬ outputViolated c ∧ ¬ filePathViolated c) ∧
    (serviceViolated c → "service name is required" ∈ (Config.validate c).2) ∧
    (envViolated c → envMsg c ∈ (Config.validate c).2) ∧
    (levelViolated c → levelMsg c ∈ (Config.validate c).2) ∧
    (outputViolated c → outputMsg c ∈ (Config.validate c).2) ∧
    (filePathViolated c → "file path is required when output is file" ∈ (Config.validate c).2) := by
  rw [validate_snd]
  refine ⟨?_, ?_, ?_, ?_, ?_, ?_⟩
  · simp only [List.append_eq_nil, (serviceErrs_spec c).1, (envErrs_spec c).1,
      (levelErrs_spec c).1, (outputErrs_spec c).1, (filePathErrs_spec c).1]
  · intro h
    simp only [List.mem_append]
    exact Or.inl ((serviceErrs_spec c).2 h)
  · intro h
    simp only [List.mem_append]
    exact Or.inr (Or.inl ((envErrs_spec c).2 h))
  · intro h
    simp only [List.mem_append]
    exact Or.inr (Or.inr (Or.inl ((levelErrs_spec c).2 h)))
  · intro h
    simp only [List.mem_append]
    exact Or.inr (Or.inr (Or.inr (Or.inl ((outputErrs_spec c).2 h))))
  · intro h
    simp only [List.mem_append]
    exact Or.inr (Or.inr (Or.inr (Or.inr ((filePathErrs_spec c).2 h))))

/-- Witness for C1: a configuration with two violations (empty service,
unrecognized environment) yields an error holding both messages. -/
theorem validate_reports_every_violation_witness :
    serviceViolated cfgTwoBad ∧ envViolated cfgTwoBad ∧
    "service name is required" ∈ (Config.validate cfgTwoBad).2 ∧
    envMsg cfgTwoBad ∈ (Config.validate cfgTwoBad).2 :=
  ⟨by decide, by decide,
   (validate_reports_every_violation cfgTwoBad).2.1 (by decide),
   (validate_reports_every_violation cfgTwoBad).2.2.1 (by decide)⟩

/-- C3: after `Config.Validate` returns — success and error alike — each
rotation field that was ≤ 0 equals its documented default (MaxSizeMB 100,
MaxBackups 3, MaxAgeDays 28) and each rotation field that was positive is
unchanged. -/
theorem validate_rotation_defaults (c : Config) :
    (c.MaxSizeMB ≤ 0 → (Config.validate c).1.MaxSizeMB = 100) ∧
    (0 < c.MaxSizeMB → (Config.validate c).1.MaxSizeMB = c.MaxSizeMB) ∧
    (c.MaxBackups ≤ 0 → (Config.validate c).1.MaxBackups = 3) ∧
    (0 < c.MaxBackups → (Config.validate c).1.MaxBackups = c.MaxBackups) ∧
    (c.MaxAgeDays ≤ 0 → (Config.validate c).1.MaxAgeDays = 28) ∧
    (0 < c.MaxAgeDays → (Config.validate c).1.MaxAgeDays = c.MaxAgeDays) := by
  refine ⟨fun h => ?_, fun h => ?_, fun h => ?_, fun h => ?_, fun h => ?_, fun h => ?_⟩ <;>
    simp only [validate_fst_MaxSizeMB, validate_fst_MaxBackups, validate_fst_MaxAgeDays] <;>
    split_ifs <;> omega

/-- Witness for C3: on `cfgRotation` the non-positive MaxSizeMB and
MaxAgeDays become 100 and 28 while the positive MaxBackups stays 5. -/
theorem validate_rotation_defaults_witness :
    (Config.validate cfgRotation).1.MaxSizeMB = 100 ∧
    (Config.validate cfgRotation).1.MaxBackups = 5 ∧
    (Config.validate cfgRotation).1.MaxAgeDays = 28 :=
  ⟨(validate_rotation_defaults cfgRotation).1 (by decide),
   (validate_rotation_defaults cfgRotation).2.2.2.1 (by decide),
   (validate_rotation_defaults cfgRotation).2.2.2.2.1 (by decide)⟩

/-- C10: `Config.Validate` modifies no configuration field other than the
three rotation fields — Service, Env, Level, Output and FilePath are
returned exactly as given — and the rotation rewrite is unconditional: the
equations hold whether or not the validation error is nil. -/
theorem validate_frame_effect (c : Config) :
    (Config.validate c).1.Service = c.Service ∧
    (Config.validate c).1.Env = c.Env ∧
    (Config.validate c).1.Level = c.Level ∧
    (Config.validate c).1.Output = c.Output ∧
    (Config.validate c).1.FilePath = c.FilePath ∧
    (Config.validate c).1.MaxSizeMB = (if c.MaxSizeMB ≤ 0 then 100 else c.MaxSizeMB) ∧
    (Config.validate c).1.MaxBackups = (if c.MaxBackups ≤ 0 then 3 else c.MaxBackups) ∧
    (Config.validate c).1.MaxAgeDays = (if c.MaxAgeDays ≤ 0 then 28 else c.MaxAgeDays) :=
  ⟨(validate_fst_frame c).1, (validate_fst_frame c).2.1, (validate_fst_frame c).2.2.1,
   (validate_fst_frame c).2.2.2.1, (validate_fst_frame c).2.2.2.2,
   validate_fst_MaxSizeMB c, validate_fst_MaxBackups c, validate_fst_MaxAgeDays c⟩

/-- C5: `toZapLevel` parses case-insensitively (every input is compared
through its lowercasing), accepts "warning" as a synonym of "warn", maps
each of debug/info/warn/error/fatal to the corresponding severity with a
nil error, and for every other input returns the defensive default severity
`info` together with an invalid-level error naming the input and listing
the valid values. -/
theorem toZapLevel_parsing (l : Level) :
    (goToLower l = "debug" → Level.toZapLevel l = (ZapLevel.debug, none)) ∧
    (goToLower l = "info" → Level.toZapLevel l = (ZapLevel.info, none)) ∧
    (goToLower l = "warn" ∨ goToLower l = "warning" → Level.toZapLevel l = (ZapLevel.warn, none)) ∧
    (goToLower l = "error" → Level.toZapLevel l = (ZapLevel.error, none)) ∧
    (goToLower l = "fatal" → Level.toZapLevel l = (ZapLevel.fatal, none)) ∧
    (goToLower l ≠ "debug" → goToLower l ≠ "info" → goToLower l ≠ "warn" →
     goToLower l ≠ "warning" → goToLower l ≠ "error" → goToLower l ≠ "fatal" →
     Level.toZapLevel l =
       (ZapLevel.info,
        some ("invalid log level: " ++ l ++ " (valid: debug, info, warn, error, fatal)"))) := by
  simp only [Level.toZapLevel]
  refine ⟨fun h => ?_, fun h => ?_, fun h => ?_, fun h => ?_, fun h => ?_,
    fun h1 h2 h3 h4 h5 h6 => ?_⟩ <;> split_ifs <;> simp_all

/-- Witness for C5: the mixed-case synonym "WARNING" maps to the warn
severity with nil error, and the unknown level "trace" yields the invalid
level error with the info fallback. -/
theorem toZapLevel_parsing_witness :
    Level.toZapLevel "WARNING" = (ZapLevel.warn, none) ∧
    Level.toZapLevel "trace" =
      (ZapLevel.info, some ("invalid log level: " ++ "trace" ++ " (valid: debug, info, warn, error, fatal)")) :=
  ⟨(toZapLevel_parsing "WARNING").2.2.1 (Or.inr (by decide)),
   (toZapLevel_parsing "trace").2.2.2.2.2 (by decide) (by decide) (by decide)
     (by decide) (by decide) (by decide)⟩

/-- The value carried by a structured field (zap.Field): the library's
constructors produce string, integer, float, boolean, arbitrary ("any") and
error values; values not inspected by any proof are collapsed into
`anyVal`. -/
inductive FieldValue where
  | str : String → FieldValue
  | int : Int → FieldValue
  | boolVal : Bool → FieldValue
  | anyVal : FieldValue
  deriving DecidableEq, Repr

/-- Models `log.Field` from fields.go: an opaque key-value pair wrapping a
zap.Field. -/
structure Field where
  key : String
  value : FieldValue
  deriving DecidableEq, Repr

/-- Models `toZapFields` from fields.go: `log.Field` wraps `zap.Field`
bijectively, so unwrapping the slice is the identity on this model. -/
def toZapFields (fields : List Field) : List Field := fields

/-- Models the `*zap.Logger` handle built by `zapimpl.BuildLogger`: the
configured minimum severity and the ordered bound fields accumulated by
`With`; the encoder and write syncer are external I/O collaborators and are
out of the record-level model. -/
structure ZapLogger where
  level : ZapLevel
  boundFields : List Field
  deriving DecidableEq, Repr

/-- Models `zap.Logger.With`: the child handle carries the parent's bound
fields followed by the given fields. -/
def ZapLogger.withF (z : ZapLogger) (fields : List Field) : ZapLogger :=
  { z with boundFields := z.boundFields ++ fields }

/-- Models `zapimpl.BuildLogger` from internal/zapimpl/logger.go: builds a
core at the given severity (the stdout/lumberjack write syncer is external
I/O) and pre-binds `service` and `env` as permanent fields; the Go function
always returns a nil error. The output and rotation arguments configure the
external sink and are kept only to mirror the signature. -/
def BuildLogger (service env : String) (level : ZapLevel)
    (outputType filePath : String) (maxSizeMB maxBackups maxAgeDays : Int) : ZapLogger :=
  let logger : ZapLogger := { level := level, boundFields := [] }
  let _ := (outputType, filePath, maxSizeMB, maxBackups, maxAgeDays)
  ZapLogger.withF logger
    [ { key := "service", value := FieldValue.str service },
      { key := "env", value := FieldValue.str env } ]

/-- Models the `Logger` struct of logger.go. -/
structure Logger where
  zapLogger : ZapLogger
  deriving DecidableEq, Repr

/-- Models `New` from logger.go: validate the config (the Go method mutates
the local copy, so the validated config is used afterwards), map the level,
build the backend, and wrap it; errors are the validation aggregate
(wrapped as "invalid config: ...") or an invalid-level error. -/
def New (cfg : Config) : Except String Logger :=
  let v := Config.validate cfg
  if v.2 ≠ [] then Except.error ("invalid config: " ++ String.intercalate "\n" v.2)
  else
    match Level.toZapLevel v.1.Level with
    | (_, some e) => Except.error e
    | (zapLevel, none) =>
        Except.ok
          { zapLogger :=
              BuildLogger v.1.Service v.1.Env zapLevel v.1.Output v.1.FilePath
                v.1.MaxSizeMB v.1.MaxBackups v.1.MaxAgeDays }

/-- The result of `Logger.With`, keeping the reference-identity information
of the Go code: `same` is the early-return branch handing back the receiver
pointer itself (no allocation), `child` is the branch allocating a fresh
Logger. -/
inductive WithResult where
  | same : WithResult
  | child : Logger → WithResult
  deriving DecidableEq, Repr

/-- Models `Logger.With` from logger.go: with zero fields the receiver
itself is returned; otherwise a new Logger wrapping `zapLogger.With` is
allocated. -/
def Logger.With (l : Logger) (fields : List Field) : WithResult :=
  if fields = [] then WithResult.same
  else WithResult.child { zapLogger := ZapLogger.withF l.zapLogger (toZapFields fields) }

/-- One frame of the Go call stack as observed through `runtime.Caller` and
`runtime.FuncForPC`: source file path, line number and fully qualified
function name (`none` models `runtime.FuncForPC` returning nil). -/
structure Frame where
  file : String
  line : Nat
  funcName : Option String
  deriving DecidableEq, Repr

/-- Models `runtime.Caller n` as invoked from inside `getCaller`: the stack
is the frame list whose index 0 is the frame of `getCaller` itself, index 1
its caller, and so on; the inspection fails (ok = false) when the index is
past the end of the stack. -/
def runtimeCaller (stack : List Frame) (n : Nat) : Option Frame :=
  stack.get? n

/-- Models `path/filepath.Base`: empty path gives ".", trailing separators
are stripped, the last path element is kept, and an all-separator path
gives "/". -/
def filepathBase (p : String) : String :=
  if p = "" then "."
  else
    let stripped := (p.toList.reverse.dropWhile (fun c => c = '/')).reverse
    let last := (stripped.reverse.takeWhile (fun c => c ≠ '/')).reverse
    if last = [] then "/"
    else String.mk last

/-- Models the package-path stripping in `getCaller`: Go keeps the suffix
after the last '/' of the function name (`strings.LastIndex` plus slice)
and the whole name when no '/' occurs. -/
def shortFuncName (s : String) : String :=
  String.mk ((s.toList.reverse.takeWhile (fun c => c ≠ '/')).reverse)

/-- Models the `callerInfo` struct of caller.go. -/
structure CallerInfo where
  file : String
  line : Nat
  function : String
  deriving DecidableEq, Repr

/-- Models `getCaller` from caller.go: inspect the stack `skip + 1` frames
above `getCaller` itself; on failure return the sentinel info, otherwise
return the base filename, the line, and the function name stripped of its
package path ("unknown" when `runtime.FuncForPC` is nil). -/
def getCaller (stack : List Frame) (skip : Nat) : CallerInfo :=
  match runtimeCaller stack (skip + 1) with
  | none => { file := "unknown", line := 0, function := "unknown" }
  | some fr =>
      let funcName :=
        match fr.funcName with
        | none => "unknown"
        | some fn => shortFuncName fn
      { file := filepathBase fr.file, line := fr.line, function := funcName }

/-- The record handed to the zap core by one log call: severity, message and
the ordered field list (the encoder's timestamp and the physical write are
external). -/
structure Record where
  level : ZapLevel
  message : String
  fields : List Field
  deriving DecidableEq, Repr

/-- Common body of the five public log methods of logger.go (they are
textually identical up to the severity): panic on empty requestId
(modelled as `none`, emitted before any record exists), otherwise extract
the caller at skip depth 1 and emit one record whose fields are the
logger's bound fields followed by the call-site fields, request_id,
metadata, caller and function. -/
def Logger.emit (l : Logger) (lvl : ZapLevel) (stack : List Frame)
    (requestId msg : String) (metadata : FieldValue) (fields : List Field) : Option Record :=
  if requestId = "" then none
  else
    let caller := getCaller stack 1
    let zapFields := toZapFields fields ++
      [ { key := "request_id", value := FieldValue.str requestId },
        { key := "metadata", value := metadata },
        { key := "caller", value := FieldValue.str (caller.file ++ ":" ++ toString caller.line) },
        { key := "function", value := FieldValue.str caller.function } ]
    some { level := lvl, message := msg, fields := l.zapLogger.boundFields ++ zapFields }

/-- Models `Logger.Debug` from logger.go. -/
def Logger.Debug (l : Logger) (stack : List Frame) (requestId msg : String)
    (metadata : FieldValue) (fields : List Field) : Option Record :=
  Logger.emit l ZapLevel.debug stack requestId msg metadata fields

/-- Models `Logger.Info` from logger.go. -/
def Logger.Info (l : Logger) (stack : List Frame) (requestId msg : String)
    (metadata : FieldValue) (fields : List Field) : Option Record :=
  Logger.emit l ZapLevel.info stack requestId msg metadata fields

/-- Models `Logger.Warn` from logger.go. -/
def Logger.Warn (l : Logger) (stack : List Frame) (requestId msg : String)
    (metadata : FieldValue) (fields : List Field) : Option Record :=
  Logger.emit l ZapLevel.warn stack requestId msg metadata fields

/-- Models `Logger.Error` from logger.go. -/
def Logger.Error (l : Logger) (stack : List Frame) (requestId msg : String)
    (metadata : FieldValue) (fields : List Field) : Option Record :=
  Logger.emit l ZapLevel.error stack requestId msg metadata fields

/-- Models `Logger.Fatal` from logger.go (the `os.Exit(1)` after emission
is process termination, outside the record-level model). -/
def Logger.Fatal (l : Logger) (stack : List Frame) (requestId msg : String)
    (metadata : FieldValue) (fields : List Field) : Option Record :=
  Logger.emit l ZapLevel.fatal stack requestId msg metadata fields

/-- A record contains a field with the given key. -/
def Record.hasKey (r : Record) (k : String) : Bool :=
  r.fields.any (fun f => f.key = k)

lemma validate_nil_level (c : Config) (h : (Config.validate c).2 = []) :
    (Level.toZapLevel c.Level).2 = none := by
  rw [validate_snd] at h
  simp only [List.append_eq_nil] at h
  have h3 : ¬ (c.Level = "" ∨ (Level.toZapLevel c.Level).2 ≠ none) :=
    (levelErrs_spec c).1.mp h.2.2.1
  push_neg at h3
  exact h3.2

lemma new_eq (cfg : Config) :
    New cfg =
      (if (Config.validate cfg).2 = [] then
        Except.ok
          { zapLogger :=
              { level := (Level.toZapLevel cfg.Level).1,
                boundFields :=
                  [ { key := "service", value := FieldValue.str cfg.Service },
                    { key := "env", value := FieldValue.str cfg.Env } ] } }
      else Except.error ("invalid config: " ++ String.intercalate "\n" (Config.validate cfg).2)) := by
  have hframe := validate_fst_frame cfg
  by_cases h : (Config.validate cfg).2 = []
  · have hz : (Level.toZapLevel cfg.Level).2 = none := validate_nil_level cfg h
    rw [if_pos h]
    simp only [New]
    rw [if_neg (not_not_intro h)]
    rw [hframe.2.2.1, hframe.1, hframe.2.1]
    rw [show Level.toZapLevel cfg.Level = ((Level.toZapLevel cfg.Level).1, none) by
      rw [← hz]]
    simp [BuildLogger, ZapLogger.withF]
  · rw [if_neg h]
    simp only [New]
    rw [if_pos h]

/-- C6: for every valid config `New` succeeds, returning a non-null Logger
whose backend pre-binds `service` and `env` as its permanent initial
fields; `New` fails, propagating the aggregated validation error, exactly
when validation fails (the backend constructor `BuildLogger` in this code
always returns a nil error, so no other failure exists). -/
theorem new_success_characterization (cfg : Config) :
    ((∃ l, New cfg = Except.ok l) ↔ (Config.validate cfg).2 = []) ∧
    (∀ l, New cfg = Except.ok l →
      l.zapLogger.boundFields =
        [ { key := "service", value := FieldValue.str cfg.Service },
          { key := "env", value := FieldValue.str cfg.Env } ]) ∧
    ((Config.validate cfg).2 ≠ [] →
      New cfg =
        Except.error ("invalid config: " ++ String.intercalate "\n" (Config.validate cfg).2)) := by
  refine ⟨?_, ?_, ?_⟩ <;> by_cases h : (Config.validate cfg).2 = [] <;>
    simp [new_eq, h]

/-- Concrete valid configuration for the `New` success witness. -/
def cfgValid : Config :=
  { Service := "svc", Env := "production", Level := "warn", Output := "stdout",
    FilePath := "", MaxSizeMB := 10, MaxBackups := 2, MaxAgeDays := 7 }

/-- Concrete invalid configuration (missing service) for the `New` failure
witness. -/
def cfgMissingService : Config :=
  { Service := "", Env := "dev", Level := "info", Output := "stdout",
    FilePath := "", MaxSizeMB := 1, MaxBackups := 1, MaxAgeDays := 1 }

/-- Witness for C6: `New` succeeds on a valid config and propagates the
aggregated error on a config with a missing service name. -/
theorem new_success_characterization_witness :
    (∃ l, New cfgValid = Except.ok l) ∧
    New cfgMissingService =
      Except.error ("invalid config: " ++ String.intercalate "\n" (Config.validate cfgMissingService).2) :=
  ⟨(new_success_characterization cfgValid).1.mpr (by decide),
   (new_success_characterization cfgMissingService).2.2 (by decide)⟩

/-- C7: each of the five public log methods aborts immediately by panic —
modelled as `none`, produced before any record exists — exactly when the
required requestId is empty, and a non-empty requestId never triggers the
abort (a record is always handed to the backend). -/
theorem log_methods_abort_on_empty_requestId (l : Logger) (stack : List Frame)
    (requestId msg : String) (metadata : FieldValue) (fields : List Field) :
    (requestId = "" →
      Logger.Debug l stack requestId msg metadata fields = none ∧
      Logger.Info l stack requestId msg metadata fields = none ∧
      Logger.Warn l stack requestId msg metadata fields = none ∧
      Logger.Error l stack requestId msg metadata fields = none ∧
      Logger.Fatal l stack requestId msg metadata fields = none) ∧
    (requestId ≠ "" →
      (Logger.Debug l stack requestId msg metadata fields).isSome = true ∧
      (Logger.Info l stack requestId msg metadata fields).isSome = true ∧
      (Logger.Warn l stack requestId msg metadata fields).isSome = true ∧
      (Logger.Error l stack requestId msg metadata fields).isSome = true ∧
      (Logger.Fatal l stack requestId msg metadata fields).isSome = true) := by
  constructor <;> intro h <;>
    simp [Logger.Debug, Logger.Info, Logger.Warn, Logger.Error, Logger.Fatal,
      Logger.emit, h]

/-- Logger with no bound fields, for concrete witnesses. -/
def bareLogger : Logger :=
  { zapLogger := { level := ZapLevel.info, boundFields := [] } }

/-- Witness for C7: with an empty requestId the Debug call panics before
emitting, with "req-1" the Info call emits a record. -/
theorem log_methods_abort_on_empty_requestId_witness :
    Logger.Debug bareLogger [] "" "m" FieldValue.anyVal [] = none ∧
    (Logger.Info bareLogger [] "req-1" "m" FieldValue.anyVal []).isSome = true :=
  ⟨((log_methods_abort_on_empty_requestId bareLogger [] "" "m" FieldValue.anyVal []).1 rfl).1,
   ((log_methods_abort_on_empty_requestId bareLogger [] "req-1" "m" FieldValue.anyVal []).2
      (by decide)).2.1⟩

/-- C4: `With` with zero fields returns the receiver itself (the
reference-equal branch, not a copy); with one or more fields it allocates a
distinct child Logger whose bound fields are the parent's bound fields in
their original order followed by the given fields in order; and the parent
is never observably mutated — its own emissions never include the new
fields (any field not already bound, not passed at the call site and not
one of the four injected keys is absent from the parent's records). -/
theorem with_reference_and_append (l : Logger) (fields : List Field) :
    (fields = [] → Logger.With l fields = WithResult.same) ∧
    (fields ≠ [] →
      Logger.With l fields =
        WithResult.child
          { zapLogger := { level := l.zapLogger.level,
                           boundFields := l.zapLogger.boundFields ++ fields } }) ∧
    (∀ lvl stack requestId msg metadata callFields rec,
      Logger.emit l lvl stack requestId msg metadata callFields = some rec →
      ∀ f, f ∈ fields → f ∉ l.zapLogger.boundFields → f ∉ callFields →
        f.key ≠ "request_id" → f.key ≠ "metadata" → f.key ≠ "caller" → f.key ≠ "function" →
        f ∉ rec.fields) := by
  refine ⟨fun h => ?_, fun h => ?_, ?_⟩
  · simp [Logger.With, h]
  · simp [Logger.With, h, ZapLogger.withF, toZapFields]
  · intro lvl stack rid msg md cs rec hrec f hf hb hc h1 h2 h3 h4
    by_cases h0 : rid = ""
    · simp [Logger.emit, h0] at hrec
    · simp only [Logger.emit, if_neg h0, Option.some.injEq] at hrec
      subst hrec
      intro hmem
      simp only [toZapFields, List.mem_append, List.mem_cons, List.not_mem_nil, or_false]
        at hmem
      rcases hmem with h | h | rfl | rfl | rfl | rfl
      · exact hb h
      · exact hc h
      · exact h1 rfl
      · exact h2 rfl
      · exact h3 rfl
      · exact h4 rfl

/-- Parent logger with one bound field, for the `With` witness. -/
def parentLogger : Logger :=
  { zapLogger :=
      { level := ZapLevel.info,
        boundFields := [{ key := "layer", value := FieldValue.str "api" }] } }

/-- Field bound by the child in the `With` witness. -/
def userField : Field := { key := "user_id", value := FieldValue.str "user-456" }

/-- Record emitted by `parentLogger` after the `With` call (computed from
the source model), used in the `With` witness. -/
def parentRecord : Record :=
  { level := ZapLevel.info, message := "m",
    fields :=
      [ { key := "layer", value := FieldValue.str "api" },
        { key := "request_id", value := FieldValue.str "req-1" },
        { key := "metadata", value := FieldValue.anyVal },
        { key := "caller", value := FieldValue.str "unknown:0" },
        { key := "function", value := FieldValue.str "unknown" } ] }

/-- Witness for C4: zero fields give the same instance, one field gives a
child with the appended bound list, and the parent's own emission does not
contain the new field. -/
theorem with_reference_and_append_witness :
    Logger.With parentLogger [] = WithResult.same ∧
    Logger.With parentLogger [userField] =
      WithResult.child
        { zapLogger :=
            { level := ZapLevel.info,
              boundFields :=
                [{ key := "layer", value := FieldValue.str "api" }, userField] } } ∧
    userField ∉ parentRecord.fields :=
  ⟨(with_reference_and_append parentLogger []).1 rfl,
   (with_reference_and_append parentLogger [userField]).2.1 (by decide),
   (with_reference_and_append parentLogger [userField]).2.2 ZapLevel.info [] "req-1" "m"
     FieldValue.anyVal [] parentRecord (by decide) userField (by decide) (by decide)
     (by decide) (by decide) (by decide) (by decide) (by decide)⟩

/-- C8: whenever stack inspection fails — `runtime.Caller` reports no frame
at depth skip + 1, e.g. because the skip depth exceeds the available
frames — `getCaller` returns the sentinel values
{file := "unknown", line := 0, function := "unknown"} instead of aborting,
so caller extraction never fails the log call. -/
theorem getCaller_sentinel_on_failure (stack : List Frame) (skip : Nat)
    (h : runtimeCaller stack (skip + 1) = none) :
    getCaller stack skip = { file := "unknown", line := 0, function := "unknown" } := by
  simp [getCaller, h]

/-- Witness for C8: on an empty stack every depth fails and the sentinel is
returned. -/
theorem getCaller_sentinel_on_failure_witness :
    getCaller [] 0 = { file := "unknown", line := 0, function := "unknown" } :=
  getCaller_sentinel_on_failure [] 0 (by decide)

/-- C9: when stack inspection succeeds, `getCaller` reports — for the frame
skip + 1 levels above the extraction point — the base filename only and the
function name stripped up to the last path separator; and every public log
method (each of Debug/Info/Warn/Error/Fatal is `Logger.emit` at its
severity) invokes it at the fixed constant skip depth 1, so the caller and
function fields of an emitted record are computed from the same stack
position for every Logger — a parent or any With-derived child alike — and
identify the application's call site. -/
theorem getCaller_success_and_fixed_depth :
    (∀ stack skip fr, runtimeCaller stack (skip + 1) = some fr →
      getCaller stack skip =
        { file := filepathBase fr.file, line := fr.line,
          function :=
            match fr.funcName with
            | none => "unknown"
            | some fn => shortFuncName fn }) ∧
    (∀ (l : Logger) (stack : List Frame) lvl requestId msg metadata callFields rec,
      Logger.emit l lvl stack requestId msg metadata callFields = some rec →
      ({ key := "caller",
         value := FieldValue.str
           ((getCaller stack 1).file ++ ":" ++ toString (getCaller stack 1).line) } : Field)
          ∈ rec.fields ∧
      ({ key := "function",
         value := FieldValue.str (getCaller stack 1).function } : Field) ∈ rec.fields) := by
  constructor
  · intro stack skip fr h
    simp [getCaller, h]
  · intro l stack lvl rid msg md cs rec hrec
    by_cases h0 : rid = ""
    · simp [Logger.emit, h0] at hrec
    · simp only [Logger.emit, if_neg h0, Option.some.injEq] at hrec
      subst hrec
      simp [toZapFields, List.mem_append, List.mem_cons]

/-- Frame of the application call site used in concrete witnesses. -/
def frameMain : Frame :=
  { file := "/app/main.go", line := 15, funcName := some "main.main" }

/-- Concrete call stack as seen from inside `getCaller` when the
application calls a public log method directly: index 0 is `getCaller`
itself, index 1 the public method, index 2 the application call site. -/
def demoStack : List Frame :=
  [ { file := "/go/src/log/caller.go", line := 20,
      funcName := some "github.com/glennprays/log.getCaller" },
    { file := "/go/src/log/logger.go", line := 120,
      funcName := some "github.com/glennprays/log.(*Logger).Info" },
    frameMain ]

/-- Logger as built by `New` from `cfgDemo`, used in concrete witnesses. -/
def demoLogger : Logger :=
  { zapLogger :=
      { level := ZapLevel.info,
        boundFields :=
          [ { key := "service", value := FieldValue.str "svc" },
            { key := "env", value := FieldValue.str "dev" } ] } }

/-- Record emitted by `demoLogger.Info` on `demoStack` (computed from the
source model), used in concrete witnesses. -/
def demoRecord : Record :=
  { level := ZapLevel.info, message := "hello",
    fields :=
      [ { key := "service", value := FieldValue.str "svc" },
        { key := "env", value := FieldValue.str "dev" },
        { key := "request_id", value := FieldValue.str "req-1" },
        { key := "metadata", value := FieldValue.anyVal },
        { key := "caller", value := FieldValue.str "main.go:15" },
        { key := "function", value := FieldValue.str "main.main" } ] }

/-- Witness for C9: on the concrete stack the reported caller is the base
filename and unqualified function of the application frame, and the Info
record of `demoLogger` contains the caller field computed at skip depth 1. -/
theorem getCaller_success_and_fixed_depth_witness :
    getCaller demoStack 1 =
      { file := filepathBase frameMain.file, line := frameMain.line,
        function :=
          match frameMain.funcName with
          | none => "unknown"
          | some fn => shortFuncName fn } ∧
    ({ key := "caller",
       value := FieldValue.str
         ((getCaller demoStack 1).file ++ ":" ++ toString (getCaller demoStack 1).line) } : Field)
        ∈ demoRecord.fields :=
  ⟨getCaller_success_and_fixed_depth.1 demoStack 1 frameMain (by decide),
   (getCaller_success_and_fixed_depth.2 demoLogger demoStack ZapLevel.info "req-1" "hello"
      FieldValue.anyVal [] demoRecord (by decide)).1⟩

/-- Configuration without any caller opt-in — the modelled Config has no
enableCaller field at all, mirroring config.go — used for the C2
counterexample. -/
def cfgDemo : Config :=
  { Service := "svc", Env := "dev", Level := "info", Output := "stdout",
    FilePath := "", MaxSizeMB := 1, MaxBackups := 1, MaxAgeDays := 1 }

/-- C2 counterexample: the code has no enableCaller setting (Config carries
no such field), yet a Logger built by `New` from a plain Config emits
records that do contain the caller and function fields — refuting the claim
that such a Logger's records contain neither. -/
theorem caller_fields_default_cex :
    New cfgDemo = Except.ok demoLogger ∧
    Option.map (fun r => (Record.hasKey r "caller", Record.hasKey r "function"))
      (Logger.Info demoLogger demoStack "req-1" "hello" FieldValue.anyVal []) =
      some (true, true) := by
  constructor
  · rfl
  · decide

/-- C2 amended: caller and function are not conditional on any
configuration — Config has no enableCaller field — and every record emitted
by any of the five log methods of any Logger (hence also of every
With-derived descendant, which shares the same methods unchanged) contains
both the caller and the function field. -/
theorem caller_fields_always_emitted (l : Logger) (stack : List Frame)
    (requestId msg : String) (metadata : FieldValue) (fields : List Field)
    (h : requestId ≠ "") :
    (∀ rec, Logger.Debug l stack requestId msg metadata fields = some rec →
      Record.hasKey rec "caller" = true ∧ Record.hasKey rec "function" = true) ∧
    (∀ rec, Logger.Info l stack requestId msg metadata fields = some rec →
      Record.hasKey rec "caller" = true ∧ Record.hasKey rec "function" = true) ∧
    (∀ rec, Logger.Warn l stack requestId msg metadata fields = some rec →
      Record.hasKey rec "caller" = true ∧ Record.hasKey rec "function" = true) ∧
    (∀ rec, Logger.Error l stack requestId msg metadata fields = some rec →
      Record.hasKey rec "caller" = true ∧ Record.hasKey rec "function" = true) ∧
    (∀ rec, Logger.Fatal l stack requestId msg metadata fields = some rec →
      Record.hasKey rec "caller" = true ∧ Record.hasKey rec "function" = true) := by
  refine ⟨?_, ?_, ?_, ?_, ?_⟩ <;> intro rec hrec <;>
    simp only [Logger.Debug, Logger.Info, Logger.Warn, Logger.Error, Logger.Fatal,
      Logger.emit, if_neg h, Option.some.injEq] at hrec <;>
    subst hrec <;>
    simp [Record.hasKey, toZapFields, List.any_append]

/-- Witness for C2 (amended): the concrete Info record of `demoLogger`
contains the caller and function fields. -/
theorem caller_fields_always_emitted_witness :
    Record.hasKey demoRecord "caller" = true ∧ Record.hasKey demoRecord "function" = true :=
  (caller_fields_always_emitted demoLogger demoStack "req-1" "hello" FieldValue.anyVal []
    (by decide)).2.1 demoRecord (by decide)

end GLog
